import Mathlib

/-!
Verification of the XFA-to-HTML interpreter core (`PDF-XML_to_HTML.py`):
a shallow embedding of `build_ui_interpreter_stacked`, its nested
`process_element` renderer, and `extract_all_js`, together with theorems
about the rendering, script aggregation, linkage (cascade) activation,
shim assembly order, determinism and the frame property of the input tree.

The element tree mirrors the lxml `_Element` view used by the source:
a raw tag string (which for namespaced nodes has the form
`\x7buri\x7dlocal`), an attribute association list, optional direct text
content, and the ordered list of child elements.
-/

/-- One element node of the parsed XFA tree, as the interpreter sees it:
raw tag (possibly namespace-qualified), attributes, direct text, children. -/
inductive XNode where
  | elem (tag : String) (attrs : List (String × String)) (text : Option String)
      (children : List XNode)

/-- Raw tag string of a node (lxml `el.tag`). -/
def XNode.tag : XNode → String
  | .elem t _ _ _ => t

/-- Attribute association list of a node. -/
def XNode.attrs : XNode → List (String × String)
  | .elem _ a _ _ => a

/-- Direct text content of a node (lxml `el.text`, `none` when absent). -/
def XNode.text : XNode → Option String
  | .elem _ _ x _ => x

/-- Ordered child elements of a node. -/
def XNode.children : XNode → List XNode
  | .elem _ _ _ c => c

/-- First-match lookup in an attribute list (attribute names are unique in
lxml, so first match is the match). -/
def lookupAttr : List (String × String) → String → Option String
  | [], _ => none
  | kv :: rest, k => if kv.1 = k then some kv.2 else lookupAttr rest k

/-- Python `el.get(key)`: the attribute value, or `none` when absent. -/
def XNode.getAttr (el : XNode) (k : String) : Option String :=
  lookupAttr el.attrs k

/-- Python `el.get(key, default)`: the attribute value (even when it is the
empty string), or the default when the attribute is absent. -/
def XNode.getAttrD (el : XNode) (k d : String) : String :=
  (el.getAttr k).getD d

/-- Python `el.text or default`: the text when it is truthy (present and
non-empty), otherwise the default. -/
def XNode.textOr (el : XNode) (d : String) : String :=
  match el.text with
  | some s => if s = "" then d else s
  | none => d

/-- Python truthiness of an optional string: `none` and `some ""` are falsy. -/
def truthy : Option String → Bool
  | some v => v != ""
  | none => false

/-- Lowercase a string character by character (Python `str.lower`, used by
the source only on ASCII tag and attribute material). -/
def strLower (s : String) : String :=
  ⟨s.data.map Char.toLower⟩

/-- Python `s.startswith(p)`. -/
def strStartsWith (s p : String) : Bool :=
  p.data.isPrefixOf s.data

/-- Python `s.endswith(p)`. -/
def strEndsWith (s p : String) : Bool :=
  p.data.reverse.isPrefixOf s.data.reverse

/-- Does `pat` occur as a contiguous sublist of the second argument?
Executable kernel-friendly substring search over character lists. -/
def subOccurs (pat : List Char) : List Char → Bool
  | [] => pat.isEmpty
  | c :: rest => pat.isPrefixOf (c :: rest) || subOccurs pat rest

/-- Python substring test `pat in hay`. -/
def strContainsB (hay pat : String) : Bool :=
  subOccurs pat.data hay.data

/-- The claim-level notion of a substring occurring verbatim. -/
def specContains (s pat : String) : Prop :=
  ∃ p q : String, s = p ++ pat ++ q

/-- Characters stripped by Python `str.strip()` (ASCII whitespace). -/
def pyWS (c : Char) : Bool :=
  c == ' ' || c == '\t' || c == '\n' || c == '\r' || c == '\x0b' || c == '\x0c'

/-- Python `s.strip()`: drop leading and trailing whitespace. -/
def pyStrip (s : String) : String :=
  ⟨((s.data.dropWhile pyWS).reverse.dropWhile pyWS).reverse⟩

/-- Python `sep.join(parts)`. -/
def pyJoin (sep : String) : List String → String
  | [] => ""
  | [s] => s
  | s :: rest => s ++ sep ++ pyJoin sep rest

/-- `etree.QName(el).localname`: for a `\x7buri\x7dlocal` tag the part after
the closing brace, otherwise the tag itself. -/
def localName (tag : String) : String :=
  if strStartsWith tag "\x7b" then
    ⟨(tag.data.dropWhile (fun c => c != '\x7d')).drop 1⟩
  else tag

mutual

/-- All proper descendants of a node, in document (preorder) order. This is
the node set traversed by the lxml `.//` path used in `findall` and `find`:
it never includes the node itself. -/
def descendants : XNode → List XNode
  | .elem _ _ _ cs => descendantsList cs

/-- Descendants of a forest: each root followed by its own descendants. -/
def descendantsList : List XNode → List XNode
  | [] => []
  | c :: rest => c :: (descendants c ++ descendantsList rest)

end

/-- `el.findall(".//tag")`: descendants whose raw tag equals `t` exactly
(lxml path matching is namespace- and case-sensitive on the raw tag). -/
def findallTag (el : XNode) (t : String) : List XNode :=
  (descendants el).filter (fun c => c.tag == t)

/-- `el.find(".//tag")`: the first such descendant, in document order. -/
def findFirstTag (el : XNode) (t : String) : Option XNode :=
  (descendants el).find? (fun c => c.tag == t)

/-- Truthiness of the cascade attribute of a node (`if cascade:` in the
source): present with a non-empty value. -/
def XNode.hasCascade (el : XNode) : Bool :=
  truthy (el.getAttr "cascade")

/-- The cascade attribute value of a node (meaningful when truthy). -/
def XNode.cascadeVal (el : XNode) : String :=
  (el.getAttr "cascade").getD ""

/-- The `cascade_attr` string computed at the top of `process_element`. -/
def cascadeAttrOf (el : XNode) : String :=
  if el.hasCascade then " data-cascade=\x27" ++ el.cascadeVal ++ "\x27" else ""

/-- `option_value` for a choice item: the `value` attribute, defaulting to
the text (`item.get("value", item.text or "")`). -/
def optionValueOf (item : XNode) : String :=
  item.getAttrD "value" (item.textOr "")

/-- `option_text` for a choice item: the text, defaulting to the option
value (`item.text or option_value`). -/
def optionTextOf (item : XNode) : String :=
  item.textOr (optionValueOf item)

/-- One `<option>` line of the choiceList branch of `process_element`. -/
def choiceOptionLine (item : XNode) : String :=
  "<option value=\x27" ++ optionValueOf item ++ "\x27>" ++ optionTextOf item ++ "</option>"

/-- One radio line of the exclGroup branch of `process_element`. -/
def radioLine (groupName cAttr : String) (choice : XNode) : String :=
  "<label><input type=\x27radio\x27 name=\x27" ++ groupName ++ "\x27 value=\x27" ++
    optionValueOf choice ++ "\x27" ++ cAttr ++ "/> " ++ optionTextOf choice ++ "</label>"

/-- The button test of the field branch: uiType contains "button", or the
lowercased name starts with "btn" or "button" or ends with "btn". -/
def fieldIsButton (el : XNode) : Bool :=
  let fieldName := el.getAttrD "name" "UnnamedField"
  let uiType := strLower (el.getAttrD "uiType" "")
  strContainsB uiType "button" || strStartsWith (strLower fieldName) "btn" ||
    strStartsWith (strLower fieldName) "button" || strEndsWith (strLower fieldName) "btn"

/-- The mutable state of one render pass: the `cascade_required` nonlocal
flag, plus the input tree threaded through the pass (the source only ever
reads the tree; the frame theorem for C9 states exactly that the threaded
tree is returned unchanged). -/
structure RState where
  cascadeRequired : Bool
  tree : XNode

mutual

/-- The recursive renderer `process_element` (source lines 169-280), with the
nonlocal `cascade_required` flag made an explicit threaded state. Returns the
markup fragment and the updated state. -/
def processElement (el : XNode) (st : RState) : String × RState :=
  let tag := strLower (localName el.tag)
  let cAttr := cascadeAttrOf el
  let st1 := if el.hasCascade then { st with cascadeRequired := true } else st
  if tag = "subform" then
    let sfName := el.getAttrD "name" "Subform"
    let r := processChildren el.children st1
    (pyJoin "\n" (["<div class=\x27subform\x27>", "<h2>" ++ sfName ++ "</h2>"] ++
      r.1 ++ ["</div>"]), r.2)
  else if tag = "field" then
    let fieldName := el.getAttrD "name" "UnnamedField"
    let fieldLabel := el.getAttrD "label" fieldName
    let fieldValue := el.getAttrD "value" ""
    let fieldType := el.getAttrD "type" "text"
    if fieldIsButton el then
      (pyJoin "\n" ["<div class=\x27field\x27>",
        "<button type=\x27button\x27 id=\x27" ++ fieldName ++ "\x27 name=\x27" ++ fieldName ++
          "\x27" ++ cAttr ++ ">" ++ fieldLabel ++ "</button>",
        "</div>"], st1)
    else
      (pyJoin "\n" ["<div class=\x27field\x27>",
        "<label for=\x27" ++ fieldName ++ "\x27>" ++ fieldLabel ++ "</label>",
        "<input type=\x27" ++ fieldType ++ "\x27 id=\x27" ++ fieldName ++ "\x27 name=\x27" ++
          fieldName ++ "\x27 value=\x27" ++ fieldValue ++ "\x27" ++ cAttr ++ " />",
        "</div>"], st1)
  else if tag = "button" then
    let btnText := el.textOr "Button"
    let btnId := el.getAttrD "name" "button"
    (pyJoin "\n" ["<div class=\x27button\x27>",
      "<button type=\x27button\x27 id=\x27" ++ btnId ++ "\x27 name=\x27" ++ btnId ++ "\x27>" ++
        btnText ++ "</button>",
      "</div>"], st1)
  else if tag = "text" then
    (pyJoin "\n" ["<div class=\x27static-text\x27>" ++ el.textOr "" ++ "</div>"], st1)
  else if tag = "textedit" then
    let fieldName := el.getAttrD "name" "TextEdit"
    let fieldValue := el.getAttrD "value" ""
    (pyJoin "\n" ["<div class=\x27textedit\x27>",
      "<input type=\x27text\x27 id=\x27" ++ fieldName ++ "\x27 name=\x27" ++ fieldName ++
        "\x27 value=\x27" ++ fieldValue ++ "\x27" ++ cAttr ++ " />",
      "</div>"], st1)
  else if tag = "numericedit" then
    let fieldName := el.getAttrD "name" "NumericEdit"
    let fieldValue := el.getAttrD "value" ""
    (pyJoin "\n" ["<div class=\x27numericedit\x27>",
      "<input type=\x27number\x27 id=\x27" ++ fieldName ++ "\x27 name=\x27" ++ fieldName ++
        "\x27 value=\x27" ++ fieldValue ++ "\x27" ++ cAttr ++ " />",
      "</div>"], st1)
  else if tag = "choicelist" then
    let fieldName := el.getAttrD "name" "ChoiceList"
    (pyJoin "\n" (["<div class=\x27choicelist\x27>",
      "<label for=\x27" ++ fieldName ++ "\x27>" ++ fieldName ++ "</label>",
      "<select id=\x27" ++ fieldName ++ "\x27 name=\x27" ++ fieldName ++ "\x27" ++ cAttr ++ ">"] ++
      (findallTag el "item").map choiceOptionLine ++
      ["</select>", "</div>"]), st1)
  else if tag = "draw" then
    let textPart :=
      match el.text with
      | some s => if s != "" && pyStrip s != "" then ["<span>" ++ pyStrip s ++ "</span>"] else []
      | none => []
    let r := processChildren el.children st1
    (pyJoin "\n" (["<div class=\x27draw\x27 style=\x27border:1px solid #aaa; padding:5px;\x27>"] ++
      textPart ++ r.1 ++ ["</div>"]), r.2)
  else if tag = "exclgroup" then
    let groupName := el.getAttrD "name" "ExclGroup"
    (pyJoin "\n" (["<div class=\x27exclgroup\x27>"] ++
      (findallTag el "exclchoice").map (radioLine groupName cAttr) ++
      ["</div>"]), st1)
  else if tag = "checkbutton" then
    let fieldName := el.getAttrD "name" "CheckButton"
    (pyJoin "\n" ["<div class=\x27checkbutton\x27>",
      "<label><input type=\x27checkbox\x27 id=\x27" ++ fieldName ++ "\x27 name=\x27" ++ fieldName ++
        "\x27" ++ cAttr ++ "/> " ++ fieldName ++ "</label>",
      "</div>"], st1)
  else
    let r := processChildren el.children st1
    (pyJoin "\n" r.1, r.2)
termination_by sizeOf el
decreasing_by
  all_goals
    obtain ⟨t0, a0, x0, cs0⟩ := el
    simp only [XNode.children, XNode.elem.sizeOf_spec]
    omega

/-- The child loop of `process_element`: renders each child in order,
threading the state, and returns the list of fragments. -/
def processChildren (els : List XNode) (st : RState) : List String × RState :=
  match els with
  | [] => ([], st)
  | c :: rest =>
    let r := processElement c st
    let rs := processChildren rest r.2
    (r.1 :: rs.1, rs.2)
termination_by sizeOf els
decreasing_by
  all_goals
    simp only [List.cons.sizeOf_spec]
    omega

end

/-- The element kinds whose render branch does not recurse into children. -/
def nonRecursiveKinds : List String :=
  ["field", "button", "text", "textedit", "numericedit", "choicelist", "exclgroup", "checkbutton"]

/-- Does the branch for kind `k` recurse into children? (subform, draw and
every unrecognized kind do; the eight kinds above do not). -/
def kindRecurses (k : String) : Bool :=
  !(nonRecursiveKinds.contains k)

mutual

/-- Does the render traversal starting at `el` reach a node with a truthy
cascade attribute? This is the exact set of nodes that can switch the
`cascade_required` flag on. -/
def visitedCascade (el : XNode) : Bool :=
  el.hasCascade || (kindRecurses (strLower (localName el.tag)) && anyVisitedCascade el.children)
termination_by sizeOf el
decreasing_by
  all_goals
    obtain ⟨t0, a0, x0, cs0⟩ := el
    simp only [XNode.children, XNode.elem.sizeOf_spec]
    omega

/-- Does the render traversal reach a truthy cascade node in a forest? -/
def anyVisitedCascade : List XNode → Bool
  | [] => false
  | c :: rest => visitedCascade c || anyVisitedCascade rest
termination_by l => sizeOf l
decreasing_by
  all_goals
    simp only [List.cons.sizeOf_spec]
    omega

end

/-- The XFA template namespace used by the source for `findall` and `find`. -/
def xfaTemplateNs : String := "http://www.xfa.org/schema/xfa-template/3.3/"

/-- The namespace-qualified script tag matched by `extract_all_js`. -/
def scriptTag : String := "\x7b" ++ xfaTemplateNs ++ "\x7dscript"

/-- The namespace-qualified template tag looked up by the builder. -/
def templateTag : String := "\x7b" ++ xfaTemplateNs ++ "\x7dtemplate"

/-- The fixed document title. -/
def uiTitle : String := "Stacked Interpreted XFA Form"

/-- The `js_parts` loop of `extract_all_js`: keep the text of each node in
order when it is truthy. -/
def collectJsTexts : List XNode → List String
  | [] => []
  | s :: rest =>
    match s.text with
    | some t => if t = "" then collectJsTexts rest else t :: collectJsTexts rest
    | none => collectJsTexts rest

/-- `extract_all_js` (source lines 111-120): texts of all namespace-qualified
script descendants, joined with a line break. -/
def extractAllJs (t : XNode) : String :=
  pyJoin "\n" (collectJsTexts (findallTag t scriptTag))

/-- The template lookup of the builder: the first `\x7bns\x7dtemplate`
descendant, falling back to the whole supplied tree. -/
def findTemplate (t : XNode) : XNode :=
  (findFirstTag t templateTag).getD t
/-- The linkage-behavior (cascade) script literal from the source, lines 290-305. -/
def cascadeJsStr : String :=
  "\ndocument.addEventListener(\x27DOMContentLoaded\x27, function()\x7b\n    var inputs = document.querySelectorAll(\"input[data-cascade], button[data-cascade]\");\n    inputs.forEach(function(input)\x7b\n        input.addEventListener(\x27input\x27, function()\x7b\n            var group = input.getAttribute(\"data-cascade\");\n            var cascadeInputs = document.querySelectorAll(\"input[data-cascade=\x27\" + group + \"\x27], button[data-cascade=\x27\" + group + \"\x27]\");\n            cascadeInputs.forEach(function(cInput)\x7b\n                if(cInput !== input)\x7b\n                    cInput.value = input.value;\n                \x7d\n            \x7d);\n        \x7d);\n    \x7d);\n\x7d);\n"

/-- The compatibility adapter and Acrobat-JS translator literal, source lines 310-326. -/
def adapterStr : String :=
  "\nif (typeof schCar === \x27undefined\x27) \x7b\n    var schCar = \x7b\n        schEnt: function(str) \x7b\n            return str.replace(/&/g, \x27&amp;\x27).replace(/</g, \x27&lt;\x27).replace(/>/g, \x27&gt;\x27);\n        \x7d\n    \x7d;\n\x7d\n\n// Function to translate Acrobat-specific JS to web-compatible JS.\n// This is a simple example. You can extend this to perform more complex translations.\nfunction translateAcrobatJS(acrobatJS) \x7b\n    // For example, replace \"app.alert\" with \"window.xfa.host.messageBox\"\n    var webJS = acrobatJS.replace(/app\\.alert/g, \"window.xfa.host.messageBox\");\n    return webJS;\n\x7d\n"

/-- First segment of the runtime literal (source lines 329-356): window.xfa host and form API shim. -/
def hostFormShimStr : String :=
  "\n// Advanced XFA JavaScript Runtime Support\nif (typeof window.xfa === \x27undefined\x27) \x7b\n    window.xfa = \x7b\x7d;\n\x7d\nwindow.xfa.host = \x7b\n    messageBox: function(message, title, iconType) \x7b\n        // For advanced runtime, replace alert with a custom modal if desired.\n        alert(title ? \x60$\x7btitle\x7d: $\x7bmessage\x7d\x60 : message);\n    \x7d,\n    gotoURL: function(url) \x7b\n        window.location.href = url;\n    \x7d,\n    beep: function(type) \x7b\n        const audio = new Audio(\x27https://www.soundjay.com/button/beep-07.wav\x27);\n        audio.play();\n    \x7d\n\x7d;\nwindow.xfa.form = \x7b\n    resolveNode: function(path) \x7b\n        return document.querySelector(\x60[name=\x27$\x7bpath\x7d\x27]\x60);\n    \x7d,\n    execEvent: function(eventName, node) \x7b\n        if (node && node.dispatchEvent) \x7b\n            node.dispatchEvent(new Event(eventName, \x7b bubbles: true \x7d));\n        \x7d\n    \x7d\n\x7d;\n"

/-- Second segment of the runtime literal (source lines 358-365): default font-metrics stub. -/
def fontStubStr : String :=
  "\n// Define a default font object to prevent \"undefined\" errors.\nif (typeof window.xfa.font === \x27undefined\x27) \x7b\n    window.xfa.font = \x7b\n        measureText: function(text) \x7b\n            return \x7b width: text.length * 7 \x7d;\n        \x7d\n    \x7d;\n\x7d;\n"

/-- Third segment of the runtime literal (source lines 367-373): guarded script executor. -/
def guardedExecutorStr : String :=
  "\nfunction executeXFAJavaScript(jsCode) \x7b\n    try \x7b\n        new Function(jsCode)();\n    \x7d catch (error) \x7b\n        console.error(\x27Error executing XFA script:\x27, error);\n    \x7d\n\x7d\n"

/-- Fourth segment of the runtime literal (source lines 375-391): advanced async and registration namespace. -/
def advancedNsStr : String :=
  "\n// Advanced runtime features: asynchronous execution and event registration.\nwindow.xfa.advanced = \x7b\n    async executeAsync(jsCode) \x7b\n        try \x7b\n            const asyncFunc = new Function(\x27return (async () => \x7b\x27 + jsCode + \x27\x7d)\x27)();\n            await asyncFunc;\n        \x7d catch (error) \x7b\n            console.error(\x27Error executing async XFA script:\x27, error);\n        \x7d\n    \x7d,\n    registerEventHandler: function(selector, eventName, handler) \x7b\n        const elements = document.querySelectorAll(selector);\n        elements.forEach(function(el) \x7b\n            el.addEventListener(eventName, handler);\n        \x7d);\n    \x7d\n\x7d;\n"

/-- The click-delegation dispatcher literal, source lines 395-422. -/
def defaultBindingsJsStr : String :=
  "\ndocument.addEventListener(\"DOMContentLoaded\", function()\x7b\n    document.body.addEventListener(\"click\", function(event)\x7b\n        var target = event.target;\n        if(target.tagName.toLowerCase() === \"button\")\x7b\n            // Check if this button has an Acrobat JS snippet attached.\n            if(target.hasAttribute(\"data-acrobat-js\"))\x7b\n                // Lazy-load the XFA runtime if not already loaded.\n                if(typeof window.xfaRuntimeLoaded === \"undefined\" || !window.xfaRuntimeLoaded)\x7b\n                    console.log(\"Loading XFA runtime...\");\n                    // (In a real scenario, you might load additional runtime code here)\n                    window.xfaRuntimeLoaded = true;\n                \x7d\n                var acrobatJS = target.getAttribute(\"data-acrobat-js\");\n                var translatedJS = translateAcrobatJS(acrobatJS);\n                try \x7b\n                    new Function(translatedJS)();\n                \x7d catch(error) \x7b\n                    console.error(\"Error executing translated JS:\", error);\n                \x7d\n            \x7d else \x7b\n                console.log(\"Button clicked (default binding): \" + target.id);\n                window.xfa.host.messageBox(\"Default action for \" + target.id);\n            \x7d\n        \x7d\n    \x7d);\n\x7d);\n"

/-- Document skeleton up to the title interpolation, from the html_doc f-string (source lines 428-497). -/
def docPreTitleStr : String :=
  "<!DOCTYPE html>\n<html>\n<head>\n  <meta charset=\"UTF-8\">\n  <title>"

/-- Document skeleton between the title and the body-content interpolation, including the fixed style rules. -/
def docPostTitleStr : String :=
  "</title>\n  <meta name=\"viewport\" content=\"width=device-width, initial-scale=1.0\">\n  <style>\n    body \x7b\n      margin: 0;\n      padding: 20px;\n      font-family: Arial, sans-serif;\n      background: #eee;\n    \x7d\n    .xfa-container \x7b\n      display: flex;\n      flex-direction: column;\n      gap: 20px;\n      background: #fff;\n      padding: 20px;\n      box-shadow: 0 0 10px rgba(0,0,0,0.1);\n    \x7d\n    .subform, .field, .button, .static-text, .textedit, .numericedit, .choicelist, .draw, .exclgroup, .checkbutton \x7b\n      display: block;\n      width: 100%;\n      position: relative;\n      margin-bottom: 10px;\n    \x7d\n    .subform \x7b\n      border: 1px dashed #888;\n      padding: 10px;\n    \x7d\n    .field, .button, .static-text, .textedit, .numericedit, .choicelist, .draw, .exclgroup, .checkbutton \x7b\n      background: #fff;\n      border: 1px solid #ccc;\n      padding: 10px;\n    \x7d\n    label \x7b\n      display: block;\n      margin-bottom: 5px;\n      font-weight: bold;\n    \x7d\n    input[type=\"text\"], input[type=\"number\"] \x7b\n      padding: 5px;\n      width: 100%;\n      box-sizing: border-box;\n    \x7d\n    button \x7b\n      padding: 10px 15px;\n      cursor: pointer;\n      font-size: 14px;\n    \x7d\n    select \x7b\n      padding: 5px;\n      width: 100%;\n      box-sizing: border-box;\n    \x7d\n    .static-text \x7b\n      background: #f9f9f9;\n      border: 1px solid #ddd;\n    \x7d\n  </style>\n</head>\n<body>\n"

/-- The single runtime literal of the source (lines 329-392), reconstructed
as the concatenation of its four labelled segments. -/
def xfaRuntimeJsStr : String :=
  hostFormShimStr ++ fontStubStr ++ guardedExecutorStr ++ advancedNsStr

/-- `build_ui_interpreter_stacked` (source lines 145-498): renders the
template, decides the cascade script, aggregates scripts, stacks the shim
pieces and assembles the output document. Also returns the final render
state, for the determinism and frame theorems. -/
def buildRun (t : XNode) : String × RState :=
  let tmpl := findTemplate t
  let r := processElement tmpl ⟨false, t⟩
  let bodyContent := "<div class=\x27xfa-container\x27>\n" ++ r.1 ++ "\n</div>"
  let cascadeJs := if r.2.cascadeRequired then cascadeJsStr else ""
  let allJs := extractAllJs t
  let uiJs := adapterStr ++ "\n" ++ xfaRuntimeJsStr ++ "\n" ++ allJs ++ "\n" ++ defaultBindingsJsStr
  let fullJs := cascadeJs ++ "\n" ++ uiJs
  (docPreTitleStr ++ uiTitle ++ docPostTitleStr ++ bodyContent ++ "\n<script>\n" ++ fullJs ++
    "\n</script>\n</body>\n</html>\n", r.2)

/-- The assembled output document. -/
def buildUiInterpreterStacked (t : XNode) : String :=
  (buildRun t).1

/-- The `cascade_required` flag at the end of the render pass on `t`. -/
def cascadeRequiredOf (t : XNode) : Bool :=
  (processElement (findTemplate t) ⟨false, t⟩).2.cascadeRequired

/-- The `cascade_js` piece chosen for the output document of `t`. -/
def cascadeJsOf (t : XNode) : String :=
  if cascadeRequiredOf t then cascadeJsStr else ""

/-- The rendered body container of the output document of `t`. -/
def bodyContentOf (t : XNode) : String :=
  "<div class=\x27xfa-container\x27>\n" ++ (processElement (findTemplate t) ⟨false, t⟩).1 ++ "\n</div>"

/-- All nodes of a tree, the root included, in document order. -/
def allNodes (t : XNode) : List XNode :=
  t :: descendants t

/-- Does a node carry the cascade attribute at all (spec wording of C1)? -/
def carriesCascadeAttr (el : XNode) : Bool :=
  (el.getAttr "cascade").isSome

/-- Does any node anywhere in the tree, the root included, carry the cascade
attribute (the claim C1 reading of "anywhere in the input tree")? -/
def anyNodeCascade (t : XNode) : Bool :=
  (allNodes t).any carriesCascadeAttr

/-- The truthy text of a node, when present (Python `if el.text:`). -/
def truthyText (el : XNode) : Option String :=
  match el.text with
  | some s => if s = "" then none else some s
  | none => none

/-- Script aggregation as worded by claim C5: every scripting node anywhere
in the tree (the root included), in document order, non-empty texts joined
with one line break. -/
def collectScriptsSpec (t : XNode) : String :=
  pyJoin "\n" ((allNodes t).filterMap
    (fun el => if el.tag == scriptTag then truthyText el else none))

/-- Descendant nodes whose local name is "item": the claim C3 reading of
"descendant item node" in the element data model of the spec, where a node
is identified by its (possibly namespace-qualified) local name. -/
def specItemDescendants (el : XNode) : List XNode :=
  (descendants el).filter (fun c => localName c.tag == "item")

/-- Descendant nodes whose local name lowercases to "exclchoice": the claim
C6 reading of "descendant exclchoice node" under the case-insensitive naming
convention of the spec. -/
def specExclChoiceDescendants (el : XNode) : List XNode :=
  (descendants el).filter (fun c => strLower (localName c.tag) == "exclchoice")

/-- The field-button condition as worded by claim C4: the UI-type hint
contains the token "button", or the name (case-insensitive) starts with
"btn" or "button" or ends with "btn". -/
def specFieldButtonCond (el : XNode) : Prop :=
  specContains (strLower (el.getAttrD "uiType" "")) "button" ∨
    strStartsWith (strLower (el.getAttrD "name" "UnnamedField")) "btn" = true ∨
    strStartsWith (strLower (el.getAttrD "name" "UnnamedField")) "button" = true ∨
    strEndsWith (strLower (el.getAttrD "name" "UnnamedField")) "btn" = true

/-- C1 counterexample input: a subform whose field child has a grandchild
carrying `cascade="g1"`. The renderer never visits children of a field
node, so the flag stays off although the attribute is present in the tree. -/
def c1Tree : XNode :=
  .elem "subform" [("name", "Root")] none
    [.elem "field" [("name", "f1")] none
      [.elem "helper" [("cascade", "g1")] none []]]

/-- C2 counterexample input: a trigger-button node carrying a truthy
cascade attribute. -/
def c2Tree : XNode :=
  .elem "button" [("name", "b1"), ("cascade", "g1")] (some "Click") []

/-- C2 witness input: a textEdit node carrying a truthy cascade attribute. -/
def c2WitTree : XNode :=
  .elem "textEdit" [("name", "te1"), ("value", "v0"), ("cascade", "grpA")] none []

/-- C3 counterexample input: a choicelist whose single item child carries
the XFA template namespace, as the upstream parser produces for nodes under
a default namespace. Its local name is `item` but its raw tag is not. -/
def c3Tree : XNode :=
  .elem "choicelist" [("name", "CL")] none
    [.elem "\x7bhttp://www.xfa.org/schema/xfa-template/3.3/\x7ditem"
      [("value", "a")] (some "A") []]

/-- C3 witness input: a choiceList with one item nested two levels deep and
one direct item child, exercising depth, document order and both fallback
rules. -/
def c3WitTree : XNode :=
  .elem "choiceList" [("name", "Fruit")] none
    [.elem "wrapper" [] none [.elem "item" [("value", "ap")] (some "Apple") []],
     .elem "item" [] (some "Pear") []]

/-- C4 witness input: a field named btnSubmit with no uiType hint (end-to-end
scenario 2 of the spec). -/
def c4WitTree : XNode :=
  .elem "field" [("name", "btnSubmit")] none []

/-- C5 counterexample input: a tree whose root element is itself a
namespace-qualified script node with truthy text. -/
def c5Tree : XNode :=
  .elem "\x7bhttp://www.xfa.org/schema/xfa-template/3.3/\x7dscript" [] (some "a();") []

/-- C5 witness input: two sibling scripting nodes with texts `a();` and
`b();` (the round-trip example of the spec). -/
def c5PairTree : XNode :=
  .elem "root" [] none
    [.elem "\x7bhttp://www.xfa.org/schema/xfa-template/3.3/\x7dscript" [] (some "a();") [],
     .elem "\x7bhttp://www.xfa.org/schema/xfa-template/3.3/\x7dscript" [] (some "b();") []]

/-- C6 failing input: an exclGroup whose child is spelled `exclChoice`, the
camel-case spelling used by the source format and by the code comment on the
exclGroup branch itself. -/
def c6Tree : XNode :=
  .elem "exclGroup" [("name", "grp")] none
    [.elem "exclChoice" [("value", "a")] (some "A") []]

/-- C10 witness input: a field whose value holds a quote, an ampersand and
an angle bracket. -/
def c10WitTree : XNode :=
  .elem "field" [("name", "nm"), ("value", "a\x27&<z")] none []

/-- Structural induction principle for the nested tree type: to prove a
property of every node it suffices to prove it for a node from the property
of all its children. -/
theorem XNode.inductOn {P : XNode → Prop}
    (h : ∀ t a x cs, (∀ c ∈ cs, P c) → P (XNode.elem t a x cs)) :
    ∀ el, P el
  | .elem t a x cs => h t a x cs (fun c hc => XNode.inductOn h c)
termination_by el => sizeOf el
decreasing_by
  simp only [XNode.elem.sizeOf_spec]
  have hlt := List.sizeOf_lt_of_mem hc
  omega

/-- Appending strings concatenates their character data. -/
theorem strDataAppend : ∀ a b : String, (a ++ b).data = a.data ++ b.data
  | ⟨_⟩, ⟨_⟩ => rfl

/-- Strings with equal character data are equal. -/
theorem strExt : ∀ {a b : String}, a.data = b.data → a = b
  | ⟨_⟩, ⟨_⟩, h => by cases h; rfl

/-- List prefix test agrees with the existential prefix decomposition. -/
theorem isPrefixOf_iff_exists : ∀ (p l : List Char),
    p.isPrefixOf l = true ↔ ∃ t, l = p ++ t := by
  intro p
  induction p with
  | nil => intro l; simp [List.isPrefixOf]
  | cons c cs ih =>
    intro l
    cases l with
    | nil => simp [List.isPrefixOf]
    | cons d ds =>
      simp only [List.isPrefixOf, Bool.and_eq_true, beq_iff_eq, ih ds, List.cons_append,
        List.cons.injEq]
      constructor
      · rintro ⟨hcd, t, ht⟩
        exact ⟨t, hcd.symm, ht⟩
      · rintro ⟨t, hdc, ht⟩
        exact ⟨hdc.symm, t, ht⟩

/-- The substring scan agrees with the existential infix decomposition. -/
theorem subOccurs_iff_exists (pat : List Char) : ∀ l : List Char,
    subOccurs pat l = true ↔ ∃ p q, l = p ++ pat ++ q := by
  intro l
  induction l with
  | nil =>
    simp only [subOccurs, List.isEmpty_iff]
    constructor
    · intro h; exact ⟨[], [], by simp [h]⟩
    · rintro ⟨p, q, h⟩
      rcases List.append_eq_nil.mp (List.append_eq_nil.mp h.symm).1 with ⟨_, h2⟩
      exact h2
  | cons c rest ih =>
    simp only [subOccurs, Bool.or_eq_true, isPrefixOf_iff_exists, ih]
    constructor
    · rintro (⟨t, ht⟩ | ⟨p, q, h⟩)
      · exact ⟨[], t, by simp [ht]⟩
      · exact ⟨c :: p, q, by simp [h]⟩
    · rintro ⟨p, q, h⟩
      cases p with
      | nil => exact Or.inl ⟨q, by simpa using h⟩
      | cons d p2 =>
        right
        simp only [List.cons_append, List.cons.injEq] at h
        exact ⟨p2, q, h.2⟩

/-- The Python substring test agrees with the verbatim-occurrence relation. -/
theorem strContainsB_iff (hay pat : String) :
    strContainsB hay pat = true ↔ specContains hay pat := by
  simp only [strContainsB, subOccurs_iff_exists, specContains]
  constructor
  · rintro ⟨p, q, h⟩
    refine ⟨⟨p⟩, ⟨q⟩, strExt ?_⟩
    simp only [strDataAppend, h]
  · rintro ⟨p, q, h⟩
    exact ⟨p.data, q.data, by simp [h, strDataAppend]⟩

/-- A join contains every verbatim occurrence inside any of its parts. -/
theorem pyJoin_contains_of_mem (sep m : String) :
    ∀ (l : List String) (s : String), s ∈ l → specContains s m →
      specContains (pyJoin sep l) m := by
  intro l
  induction l with
  | nil => intro s hs; cases hs
  | cons x rest ih =>
    intro s hs hm
    cases rest with
    | nil =>
      rcases List.mem_cons.mp hs with h | h
      · simpa [pyJoin, h] using hm
      · cases h
    | cons y rest2 =>
      rcases List.mem_cons.mp hs with h | h
      · rcases hm with ⟨p, q, hpq⟩
        exact ⟨p, q ++ sep ++ pyJoin sep (y :: rest2), by
          simp [pyJoin, ← h, hpq, String.append_assoc]⟩
      · rcases ih s h hm with ⟨p, q, hpq⟩
        exact ⟨x ++ sep ++ p, q, by simp [pyJoin, hpq, String.append_assoc]⟩

theorem processChildren_state (cs : List XNode)
    (ih : ∀ c ∈ cs, ∀ st : RState,
      (processElement c st).2 = ⟨st.cascadeRequired || visitedCascade c, st.tree⟩) :
    ∀ st : RState, (processChildren cs st).2 =
      ⟨st.cascadeRequired || anyVisitedCascade cs, st.tree⟩ := by
  induction cs with
  | nil => intro st; simp [processChildren, anyVisitedCascade]
  | cons c rest ihr =>
    intro st
    simp only [processChildren]
    rw [ih c (List.mem_cons_self c rest)]
    rw [ihr (fun c2 hc2 => ih c2 (List.mem_cons_of_mem c hc2))]
    simp [anyVisitedCascade, Bool.or_assoc]

theorem processElement_state : ∀ (el : XNode) (st : RState),
    (processElement el st).2 = ⟨st.cascadeRequired || visitedCascade el, st.tree⟩ := by
  intro el
  induction el using XNode.inductOn with
  | _ t a x cs ih =>
    intro st
    have hch := processChildren_state cs ih
    have hvc : visitedCascade (XNode.elem t a x cs) =
        ((XNode.elem t a x cs).hasCascade ||
          (kindRecurses (strLower (localName t)) && anyVisitedCascade cs)) := by
      simp [visitedCascade, XNode.tag, XNode.children]
    simp only [processElement, XNode.tag, XNode.children, hvc]
    rcases Bool.eq_false_or_eq_true (XNode.elem t a x cs).hasCascade with hcas | hcas <;>
      simp only [hcas, Bool.false_eq_true, reduceIte, Bool.true_or, Bool.false_or] <;>
    · by_cases h1 : strLower (localName t) = "subform"
      · simp only [h1, reduceIte]
        rw [hch]
        simp +decide [hcas, kindRecurses, nonRecursiveKinds, Bool.or_assoc]
      simp only [h1, reduceIte]
      by_cases h2 : strLower (localName t) = "field"
      · rcases Bool.eq_false_or_eq_true (fieldIsButton (XNode.elem t a x cs)) with hfb | hfb <;>
          simp +decide [h2, hfb, hcas, kindRecurses, nonRecursiveKinds]
      simp only [h2, reduceIte]
      by_cases h3 : strLower (localName t) = "button"
      · simp +decide [h3, hcas, kindRecurses, nonRecursiveKinds]
      simp only [h3, reduceIte]
      by_cases h4 : strLower (localName t) = "text"
      · simp +decide [h4, hcas, kindRecurses, nonRecursiveKinds]
      simp only [h4, reduceIte]
      by_cases h5 : strLower (localName t) = "textedit"
      · simp +decide [h5, hcas, kindRecurses, nonRecursiveKinds]
      simp only [h5, reduceIte]
      by_cases h6 : strLower (localName t) = "numericedit"
      · simp +decide [h6, hcas, kindRecurses, nonRecursiveKinds]
      simp only [h6, reduceIte]
      by_cases h7 : strLower (localName t) = "choicelist"
      · simp +decide [h7, hcas, kindRecurses, nonRecursiveKinds]
      simp only [h7, reduceIte]
      by_cases h8 : strLower (localName t) = "draw"
      · simp only [h8, reduceIte]
        rw [hch]
        simp +decide [hcas, kindRecurses, nonRecursiveKinds, Bool.or_assoc]
      simp only [h8, reduceIte]
      by_cases h9 : strLower (localName t) = "exclgroup"
      · simp +decide [h9, hcas, kindRecurses, nonRecursiveKinds]
      simp only [h9, reduceIte]
      by_cases h10 : strLower (localName t) = "checkbutton"
      · simp +decide [h10, hcas, kindRecurses, nonRecursiveKinds]
      simp only [h10, reduceIte]
      rw [hch]
      have hk : kindRecurses (strLower (localName t)) = true := by
        have e2 := beq_eq_false_iff_ne.mpr h2
        have e3 := beq_eq_false_iff_ne.mpr h3
        have e4 := beq_eq_false_iff_ne.mpr h4
        have e5 := beq_eq_false_iff_ne.mpr h5
        have e6 := beq_eq_false_iff_ne.mpr h6
        have e7 := beq_eq_false_iff_ne.mpr h7
        have e9 := beq_eq_false_iff_ne.mpr h9
        have e10 := beq_eq_false_iff_ne.mpr h10
        simp [kindRecurses, nonRecursiveKinds, List.contains, List.elem,
          e2, e3, e4, e5, e6, e7, e9, e10]
      simp [hcas, hk, Bool.or_assoc]

theorem processChildren_fst (cs : List XNode)
    (ih : ∀ c ∈ cs, ∀ s1 s2 : RState, (processElement c s1).1 = (processElement c s2).1) :
    ∀ s1 s2 : RState, (processChildren cs s1).1 = (processChildren cs s2).1 := by
  induction cs with
  | nil => intro s1 s2; simp [processChildren]
  | cons c rest ihr =>
    intro s1 s2
    simp only [processChildren]
    rw [ih c (List.mem_cons_self c rest) s1 s2]
    rw [ihr (fun c2 hc2 => ih c2 (List.mem_cons_of_mem c hc2))
      (processElement c s1).2 (processElement c s2).2]

theorem processElement_fst : ∀ (el : XNode) (s1 s2 : RState),
    (processElement el s1).1 = (processElement el s2).1 := by
  intro el
  induction el using XNode.inductOn with
  | _ t a x cs ih =>
    intro s1 s2
    have hfch := processChildren_fst cs ih
    simp only [processElement, XNode.tag, XNode.children]
    rcases Bool.eq_false_or_eq_true (XNode.elem t a x cs).hasCascade with hcas | hcas <;>
      simp only [hcas, Bool.false_eq_true, reduceIte] <;>
    · by_cases h1 : strLower (localName t) = "subform"
      · simp only [h1, reduceIte]
        rw [hfch _ _]
      simp only [h1, reduceIte]
      by_cases h2 : strLower (localName t) = "field"
      · rcases Bool.eq_false_or_eq_true (fieldIsButton (XNode.elem t a x cs)) with hfb | hfb <;>
          simp only [h2, hfb, Bool.false_eq_true, reduceIte]
      simp only [h2, reduceIte]
      by_cases h3 : strLower (localName t) = "button"
      · simp only [h3, reduceIte]
      simp only [h3, reduceIte]
      by_cases h4 : strLower (localName t) = "text"
      · simp only [h4, reduceIte]
      simp only [h4, reduceIte]
      by_cases h5 : strLower (localName t) = "textedit"
      · simp only [h5, reduceIte]
      simp only [h5, reduceIte]
      by_cases h6 : strLower (localName t) = "numericedit"
      · simp only [h6, reduceIte]
      simp only [h6, reduceIte]
      by_cases h7 : strLower (localName t) = "choicelist"
      · simp only [h7, reduceIte]
      simp only [h7, reduceIte]
      by_cases h8 : strLower (localName t) = "draw"
      · simp only [h8, reduceIte]
        rw [hfch _ _]
      simp only [h8, reduceIte]
      by_cases h9 : strLower (localName t) = "exclgroup"
      · simp only [h9, reduceIte]
      simp only [h9, reduceIte]
      by_cases h10 : strLower (localName t) = "checkbutton"
      · simp only [h10, reduceIte]
      simp only [h10, reduceIte]
      rw [hfch _ _]

/-- A string occurs verbatim in itself. -/
theorem specContains_here (m : String) : specContains m m :=
  ⟨"", "", strExt (by simp [strDataAppend])⟩

/-- Verbatim occurrence is preserved by appending on the right. -/
theorem specContains_appL (s t m : String) (h : specContains s m) :
    specContains (s ++ t) m := by
  rcases h with ⟨p, q, hp⟩
  exact ⟨p, q ++ t, by rw [hp]; simp [String.append_assoc]⟩

/-- Verbatim occurrence is preserved by appending on the left. -/
theorem specContains_appR (s t m : String) (h : specContains t m) :
    specContains (s ++ t) m := by
  rcases h with ⟨p, q, hp⟩
  exact ⟨s ++ p, q, by rw [hp]; simp [String.append_assoc]⟩

/-- C1 (amended): the linkage-behavior script piece of the output document is
the fixed cascade script exactly when the render traversal reaches a node
with a truthy cascade attribute - the template root and, recursively, the
children of the kinds that recurse (subform, draw, unrecognized) - and the
empty string otherwise; the fixed script is non-empty. -/
theorem c1_linkage_amended (t : XNode) :
    cascadeJsStr ≠ "" ∧
      cascadeJsOf t = (if visitedCascade (findTemplate t) then cascadeJsStr else "") := by
  constructor
  · decide
  · simp only [cascadeJsOf, cascadeRequiredOf, processElement_state, Bool.false_or]

/-- C9: the interpreter never mutates the input element tree: the state
returned by the full interpretation carries the input tree unchanged, and
every recursive render step preserves the tree component of the state. -/
theorem c9_tree_frame (t : XNode) :
    (buildRun t).2.tree = t ∧
      ∀ (el : XNode) (st : RState), (processElement el st).2.tree = st.tree := by
  constructor
  · simp only [buildRun, processElement_state]
  · intro el st
    simp only [processElement_state]

/-- C8: interpretation is deterministic: the embedding is a pure function of
the input tree, so two runs give byte-identical documents, and the rendered
markup does not depend on the incoming render state at all. -/
theorem c8_deterministic (t : XNode) (s1 s2 : RState) :
    buildUiInterpreterStacked t = buildUiInterpreterStacked t ∧
      (processElement (findTemplate t) s1).1 = (processElement (findTemplate t) s2).1 :=
  ⟨rfl, processElement_fst (findTemplate t) s1 s2⟩

/-- C7: the embedded script section of every output document concatenates, in
this fixed order: linkage script (empty when not required), adapter and
translator, host and form API shim, font stub, guarded executor, advanced
async and registration namespace, aggregated original scripts, and the
click-delegation dispatcher. -/
theorem c7_script_order (t : XNode) :
    buildUiInterpreterStacked t =
      docPreTitleStr ++ uiTitle ++ docPostTitleStr ++ bodyContentOf t ++ "\n<script>\n" ++
        (cascadeJsOf t ++ "\n" ++ (adapterStr ++ "\n" ++
          (hostFormShimStr ++ fontStubStr ++ guardedExecutorStr ++ advancedNsStr) ++ "\n" ++
          extractAllJs t ++ "\n" ++ defaultBindingsJsStr)) ++
        "\n</script>\n</body>\n</html>\n" := by
  simp only [buildUiInterpreterStacked, buildRun, bodyContentOf, cascadeJsOf, cascadeRequiredOf,
    xfaRuntimeJsStr, String.append_assoc]


theorem c1_linkage_counterexample :
    anyNodeCascade c1Tree = true ∧ cascadeRequiredOf c1Tree = false ∧
      cascadeJsOf c1Tree = "" ∧ cascadeJsStr ≠ "" := by
  have hreq : cascadeRequiredOf c1Tree = false := by
    rw [cascadeRequiredOf, processElement_state]
    simp [findTemplate, findFirstTag, descendants, descendantsList, visitedCascade,
      anyVisitedCascade, kindRecurses, nonRecursiveKinds, XNode.hasCascade, XNode.getAttr,
      XNode.attrs, XNode.tag, XNode.children, lookupAttr, truthy, strLower, localName,
      strStartsWith, templateTag, xfaTemplateNs, c1Tree]
  refine ⟨?_, hreq, ?_, by decide⟩
  · simp [anyNodeCascade, allNodes, carriesCascadeAttr, descendants, descendantsList,
      XNode.getAttr, XNode.attrs, lookupAttr, c1Tree]
  · simp [cascadeJsOf, hreq]
/-- The aggregation loop over a filtered node list is the combined filterMap
of the tag test and the truthy-text extraction. -/
theorem collectJsTexts_filterMap (p : XNode → Bool) :
    ∀ l : List XNode, collectJsTexts (l.filter p) =
      l.filterMap (fun el => if p el then truthyText el else none) := by
  intro l
  induction l with
  | nil => simp [collectJsTexts]
  | cons c rest ih =>
    by_cases hp : p c = true
    · cases hx : c.text with
      | none => simp [List.filter_cons, hp, collectJsTexts, hx, truthyText, ih]
      | some s =>
        by_cases hs : s = "" <;>
          simp [List.filter_cons, hp, collectJsTexts, hx, truthyText, hs, ih]
    · simp [List.filter_cons, hp, List.filterMap_cons, ih]

/-- C5 (amended): script aggregation concatenates, with a single line break
and no deduplication or reordering, the non-empty texts of exactly the
scripting nodes strictly below the root element, in document order; on the
two-script example it yields the blob `a();` line-break `b();`. -/
theorem c5_scripts_amended :
    (∀ t : XNode, extractAllJs t = pyJoin "\n" ((descendants t).filterMap
      (fun el => if el.tag == scriptTag then truthyText el else none))) ∧
    extractAllJs c5PairTree = "a();\nb();" := by
  constructor
  · intro t
    simp only [extractAllJs, findallTag, collectJsTexts_filterMap]
  · simp [processElement, processChildren, descendants, descendantsList, findallTag, findFirstTag,
    findTemplate, strLower, localName, strStartsWith, strEndsWith, strContainsB, subOccurs,
    cascadeAttrOf, XNode.hasCascade, XNode.getAttr, XNode.getAttrD, XNode.attrs, XNode.tag,
    XNode.children, XNode.text, XNode.textOr, XNode.cascadeVal, lookupAttr, truthy,
    fieldIsButton, pyJoin, pyStrip, pyWS, choiceOptionLine, radioLine, optionValueOf,
    optionTextOf, visitedCascade, anyVisitedCascade, kindRecurses, nonRecursiveKinds,
    templateTag, scriptTag, xfaTemplateNs, collectJsTexts, extractAllJs, truthyText, allNodes,
    carriesCascadeAttr, anyNodeCascade, collectScriptsSpec, specItemDescendants,
    specExclChoiceDescendants, cascadeRequiredOf, cascadeJsOf, c5PairTree]

/-- C5 (counterexample): on a tree whose root element is itself a scripting
node with truthy text, the aggregator returns the empty string although the
claimed anywhere-in-the-tree aggregation yields the root text. -/
theorem c5_scripts_counterexample :
    extractAllJs c5Tree = "" ∧ collectScriptsSpec c5Tree = "a();" ∧
      extractAllJs c5Tree ≠ collectScriptsSpec c5Tree := by
  refine ⟨?_, ?_, ?_⟩ <;>
    simp [processElement, processChildren, descendants, descendantsList, findallTag, findFirstTag,
    findTemplate, strLower, localName, strStartsWith, strEndsWith, strContainsB, subOccurs,
    cascadeAttrOf, XNode.hasCascade, XNode.getAttr, XNode.getAttrD, XNode.attrs, XNode.tag,
    XNode.children, XNode.text, XNode.textOr, XNode.cascadeVal, lookupAttr, truthy,
    fieldIsButton, pyJoin, pyStrip, pyWS, choiceOptionLine, radioLine, optionValueOf,
    optionTextOf, visitedCascade, anyVisitedCascade, kindRecurses, nonRecursiveKinds,
    templateTag, scriptTag, xfaTemplateNs, collectJsTexts, extractAllJs, truthyText, allNodes,
    carriesCascadeAttr, anyNodeCascade, collectScriptsSpec, specItemDescendants,
    specExclChoiceDescendants, cascadeRequiredOf, cascadeJsOf, c5Tree]

/-- C6: on the failing input - an exclGroup whose child uses the camel-case
exclChoice spelling of the source format and of the code comment on that very
branch - the renderer emits an empty group with zero radio selectors,
although exactly one descendant exclchoice node exists. -/
theorem c6_exclgroup_case_bug :
    (processElement c6Tree ⟨false, c6Tree⟩).1 = "<div class=\x27exclgroup\x27>\n</div>" ∧
      (specExclChoiceDescendants c6Tree).length = 1 := by
  constructor <;>
    simp [processElement, processChildren, descendants, descendantsList, findallTag, findFirstTag,
    findTemplate, strLower, localName, strStartsWith, strEndsWith, strContainsB, subOccurs,
    cascadeAttrOf, XNode.hasCascade, XNode.getAttr, XNode.getAttrD, XNode.attrs, XNode.tag,
    XNode.children, XNode.text, XNode.textOr, XNode.cascadeVal, lookupAttr, truthy,
    fieldIsButton, pyJoin, pyStrip, pyWS, choiceOptionLine, radioLine, optionValueOf,
    optionTextOf, visitedCascade, anyVisitedCascade, kindRecurses, nonRecursiveKinds,
    templateTag, scriptTag, xfaTemplateNs, collectJsTexts, extractAllJs, truthyText, allNodes,
    carriesCascadeAttr, anyNodeCascade, collectScriptsSpec, specItemDescendants,
    specExclChoiceDescendants, cascadeRequiredOf, cascadeJsOf, c6Tree]

/-- C3 (amended): a single-choice-list node renders as a label plus a select
whose option lines are exactly one per descendant node whose raw tag is the
literal string "item" (any depth, document order); each option value is the
item value attribute defaulting to the item text, each visible label is the
item text defaulting to the option value. -/
theorem c3_options_amended (el : XNode) (st : RState)
    (h : strLower (localName el.tag) = "choicelist") :
    (processElement el st).1 = pyJoin "\n"
      (["<div class=\x27choicelist\x27>",
        "<label for=\x27" ++ el.getAttrD "name" "ChoiceList" ++ "\x27>" ++
          el.getAttrD "name" "ChoiceList" ++ "</label>",
        "<select id=\x27" ++ el.getAttrD "name" "ChoiceList" ++ "\x27 name=\x27" ++
          el.getAttrD "name" "ChoiceList" ++ "\x27" ++ cascadeAttrOf el ++ ">"] ++
      ((descendants el).filter (fun c => c.tag == "item")).map
        (fun item => "<option value=\x27" ++ item.getAttrD "value" (item.textOr "") ++
          "\x27>" ++ item.textOr (item.getAttrD "value" (item.textOr "")) ++ "</option>") ++
      ["</select>", "</div>"]) := by
  have hopt : choiceOptionLine = (fun item : XNode =>
      "<option value=\x27" ++ item.getAttrD "value" (item.textOr "") ++ "\x27>" ++
        item.textOr (item.getAttrD "value" (item.textOr "")) ++ "</option>") := by
    funext item
    simp [choiceOptionLine, optionValueOf, optionTextOf]
  simp only [processElement, h, String.reduceEq, reduceIte, findallTag, hopt]

/-- C3 (counterexample): a choicelist whose descendant item node carries the
XFA namespace renders a select with zero options while the tree has exactly
one descendant item node, refuting the claimed one-option-per-item rule. -/
theorem c3_options_counterexample :
    (processElement c3Tree ⟨false, c3Tree⟩).1 =
      "<div class=\x27choicelist\x27>\n<label for=\x27CL\x27>CL</label>\n<select id=\x27CL\x27 name=\x27CL\x27>\n</select>\n</div>" ∧
    (specItemDescendants c3Tree).length = 1 ∧
    subOccurs ("<option".data) ((processElement c3Tree ⟨false, c3Tree⟩).1).data = false := by
  have hhtml : (processElement c3Tree ⟨false, c3Tree⟩).1 =
      "<div class=\x27choicelist\x27>\n<label for=\x27CL\x27>CL</label>\n<select id=\x27CL\x27 name=\x27CL\x27>\n</select>\n</div>" := by
    simp [processElement, processChildren, descendants, descendantsList, findallTag, findFirstTag,
    findTemplate, strLower, localName, strStartsWith, strEndsWith, strContainsB, subOccurs,
    cascadeAttrOf, XNode.hasCascade, XNode.getAttr, XNode.getAttrD, XNode.attrs, XNode.tag,
    XNode.children, XNode.text, XNode.textOr, XNode.cascadeVal, lookupAttr, truthy,
    fieldIsButton, pyJoin, pyStrip, pyWS, choiceOptionLine, radioLine, optionValueOf,
    optionTextOf, templateTag, scriptTag, xfaTemplateNs, c3Tree]
  refine ⟨hhtml, ?_, ?_⟩
  · simp [specItemDescendants, descendants, descendantsList, localName, strLower,
      strStartsWith, XNode.tag, c3Tree]
  · rw [hhtml]
    decide

/-- C3 (witness): on a concrete choiceList with one item nested two levels
deep and one direct item, the amended theorem yields two options in document
order, exercising both the value and the label fallback. -/
theorem c3_options_witness :
    (processElement c3WitTree ⟨false, c3WitTree⟩).1 =
      "<div class=\x27choicelist\x27>\n<label for=\x27Fruit\x27>Fruit</label>\n<select id=\x27Fruit\x27 name=\x27Fruit\x27>\n<option value=\x27ap\x27>Apple</option>\n<option value=\x27Pear\x27>Pear</option>\n</select>\n</div>" := by
  have h := c3_options_amended c3WitTree ⟨false, c3WitTree⟩ (by decide)
  rw [h]
  simp [processElement, processChildren, descendants, descendantsList, findallTag, findFirstTag,
    findTemplate, strLower, localName, strStartsWith, strEndsWith, strContainsB, subOccurs,
    cascadeAttrOf, XNode.hasCascade, XNode.getAttr, XNode.getAttrD, XNode.attrs, XNode.tag,
    XNode.children, XNode.text, XNode.textOr, XNode.cascadeVal, lookupAttr, truthy,
    fieldIsButton, pyJoin, pyStrip, pyWS, choiceOptionLine, radioLine, optionValueOf,
    optionTextOf, templateTag, scriptTag, xfaTemplateNs, c3WitTree]

/-- The field button test of the source agrees with the condition as worded
by the claim. -/
theorem fieldIsButton_iff (el : XNode) :
    fieldIsButton el = true ↔ specFieldButtonCond el := by
  simp only [fieldIsButton, specFieldButtonCond, Bool.or_eq_true, strContainsB_iff]
  tauto

/-- C4: a field node renders as a clickable button labeled with the label
text - never as an editable input - exactly when the claimed condition
holds (uiType hint contains "button", or the case-insensitive name starts
with "btn" or "button" or ends with "btn"); otherwise it renders as a
labeled editable input of the declared type with the value pre-filled. -/
theorem c4_field_button_rule (el : XNode) (st : RState)
    (h : strLower (localName el.tag) = "field") :
    (specFieldButtonCond el → (processElement el st).1 = pyJoin "\n"
      ["<div class=\x27field\x27>",
       "<button type=\x27button\x27 id=\x27" ++ el.getAttrD "name" "UnnamedField" ++
         "\x27 name=\x27" ++ el.getAttrD "name" "UnnamedField" ++ "\x27" ++ cascadeAttrOf el ++
         ">" ++ el.getAttrD "label" (el.getAttrD "name" "UnnamedField") ++ "</button>",
       "</div>"]) ∧
    (¬ specFieldButtonCond el → (processElement el st).1 = pyJoin "\n"
      ["<div class=\x27field\x27>",
       "<label for=\x27" ++ el.getAttrD "name" "UnnamedField" ++ "\x27>" ++
         el.getAttrD "label" (el.getAttrD "name" "UnnamedField") ++ "</label>",
       "<input type=\x27" ++ el.getAttrD "type" "text" ++ "\x27 id=\x27" ++
         el.getAttrD "name" "UnnamedField" ++ "\x27 name=\x27" ++
         el.getAttrD "name" "UnnamedField" ++ "\x27 value=\x27" ++ el.getAttrD "value" "" ++
         "\x27" ++ cascadeAttrOf el ++ " />",
       "</div>"]) := by
  constructor
  · intro hbc
    have hb : fieldIsButton el = true := (fieldIsButton_iff el).mpr hbc
    simp only [processElement, h, String.reduceEq, reduceIte, hb]
  · intro hbc
    have hb : fieldIsButton el = false := by
      rcases Bool.eq_false_or_eq_true (fieldIsButton el) with hf | hf
      · exact absurd ((fieldIsButton_iff el).mp hf) hbc
      · exact hf
    simp only [processElement, h, String.reduceEq, reduceIte, hb, Bool.false_eq_true]

/-- C4 (witness): the btnSubmit field with no uiType hint renders as a
clickable button labeled btnSubmit and not as an editable input
(end-to-end scenario 2). -/
theorem c4_field_button_witness :
    (processElement c4WitTree ⟨false, c4WitTree⟩).1 =
      "<div class=\x27field\x27>\n<button type=\x27button\x27 id=\x27btnSubmit\x27 name=\x27btnSubmit\x27>btnSubmit</button>\n</div>" := by
  have h := (c4_field_button_rule c4WitTree ⟨false, c4WitTree⟩ (by decide)).1
    (Or.inr (Or.inl (by decide)))
  rw [h]
  simp [processElement, processChildren, descendants, descendantsList, findallTag, findFirstTag,
    findTemplate, strLower, localName, strStartsWith, strEndsWith, strContainsB, subOccurs,
    cascadeAttrOf, XNode.hasCascade, XNode.getAttr, XNode.getAttrD, XNode.attrs, XNode.tag,
    XNode.children, XNode.text, XNode.textOr, XNode.cascadeVal, lookupAttr, truthy,
    fieldIsButton, pyJoin, pyStrip, pyWS, choiceOptionLine, radioLine, optionValueOf,
    optionTextOf, templateTag, scriptTag, xfaTemplateNs, c4WitTree]


/-- C2 (amended): a node with a truthy cascade attribute always switches the
process-wide linkage flag on (idempotently); its rendered interactive control
carries the data-cascade marker with the attribute value for the field,
textedit, numericedit, choicelist and checkbutton kinds, and for every radio
selector emitted by an exclgroup kind - but the trigger-button kind emits
its button without the marker. -/
theorem c2_marker_amended (el : XNode) (st : RState) (v : String)
    (hv : el.getAttr "cascade" = some v) (hne : v ≠ "") :
    (processElement el st).2.cascadeRequired = true ∧
    (strLower (localName el.tag) ∈
        (["field", "textedit", "numericedit", "choicelist", "checkbutton"] : List String) →
      specContains (processElement el st).1 (" data-cascade=\x27" ++ v ++ "\x27")) ∧
    (strLower (localName el.tag) = "exclgroup" →
      ∀ c ∈ findallTag el "exclchoice",
        specContains (radioLine (el.getAttrD "name" "ExclGroup") (cascadeAttrOf el) c)
            (" data-cascade=\x27" ++ v ++ "\x27") ∧
          specContains (processElement el st).1 (" data-cascade=\x27" ++ v ++ "\x27")) := by
  have hcas : el.hasCascade = true := by
    simp [XNode.hasCascade, hv, truthy, bne_iff_ne, hne]
  have hca : cascadeAttrOf el = " data-cascade=\x27" ++ v ++ "\x27" := by
    simp [cascadeAttrOf, hcas, XNode.cascadeVal, hv]
  refine ⟨?_, ?_, ?_⟩
  · rw [processElement_state]
    simp [visitedCascade, hcas]
  · intro hk
    simp only [List.mem_cons, List.not_mem_nil, or_false] at hk
    rcases hk with h | h | h | h | h
    · rcases Bool.eq_false_or_eq_true (fieldIsButton el) with hfb | hfb
      · simp only [processElement, h, String.reduceEq, reduceIte, hfb, hca]
        refine pyJoin_contains_of_mem "\n" _ _ _
          (List.mem_cons_of_mem _ (List.mem_cons_self _ _)) ?_
        apply specContains_appL
        apply specContains_appL
        apply specContains_appL
        apply specContains_appR
        exact specContains_here _
      · simp only [processElement, h, String.reduceEq, reduceIte, hfb, Bool.false_eq_true, hca]
        refine pyJoin_contains_of_mem "\n" _ _ _
          (List.mem_cons_of_mem _ (List.mem_cons_of_mem _ (List.mem_cons_self _ _))) ?_
        apply specContains_appL
        apply specContains_appR
        exact specContains_here _
    · simp only [processElement, h, String.reduceEq, reduceIte, hca]
      refine pyJoin_contains_of_mem "\n" _ _ _
        (List.mem_cons_of_mem _ (List.mem_cons_self _ _)) ?_
      apply specContains_appL
      apply specContains_appR
      exact specContains_here _
    · simp only [processElement, h, String.reduceEq, reduceIte, hca]
      refine pyJoin_contains_of_mem "\n" _ _ _
        (List.mem_cons_of_mem _ (List.mem_cons_self _ _)) ?_
      apply specContains_appL
      apply specContains_appR
      exact specContains_here _
    · simp only [processElement, h, String.reduceEq, reduceIte, hca]
      refine pyJoin_contains_of_mem "\n" _ _ _
        (List.mem_append_left _ (List.mem_append_left _
          (List.mem_cons_of_mem _ (List.mem_cons_of_mem _ (List.mem_cons_self _ _))))) ?_
      apply specContains_appL
      apply specContains_appR
      exact specContains_here _
    · simp only [processElement, h, String.reduceEq, reduceIte, hca]
      refine pyJoin_contains_of_mem "\n" _ _ _
        (List.mem_cons_of_mem _ (List.mem_cons_self _ _)) ?_
      apply specContains_appL
      apply specContains_appL
      apply specContains_appL
      apply specContains_appR
      exact specContains_here _
  · intro h c hc
    constructor
    · simp only [radioLine, hca]
      apply specContains_appL
      apply specContains_appL
      apply specContains_appL
      apply specContains_appR
      exact specContains_here _
    · simp only [processElement, h, String.reduceEq, reduceIte, hca]
      refine pyJoin_contains_of_mem "\n" _ _ _
        (List.mem_append_left _ (List.mem_append_right _ (List.mem_map_of_mem _ hc))) ?_
      simp only [radioLine]
      apply specContains_appL
      apply specContains_appL
      apply specContains_appL
      apply specContains_appR
      exact specContains_here _

/-- C2 (counterexample): a trigger-button node bearing a truthy cascade
attribute emits its interactive control without any data-cascade marker,
refuting the including-the-trigger-button-kind part of the claim. -/
theorem c2_marker_counterexample :
    c2Tree.hasCascade = true ∧
    (processElement c2Tree ⟨false, c2Tree⟩).1 =
      "<div class=\x27button\x27>\n<button type=\x27button\x27 id=\x27b1\x27 name=\x27b1\x27>Click</button>\n</div>" ∧
    subOccurs ("data-cascade".data) ((processElement c2Tree ⟨false, c2Tree⟩).1).data = false := by
  have hhtml : (processElement c2Tree ⟨false, c2Tree⟩).1 =
      "<div class=\x27button\x27>\n<button type=\x27button\x27 id=\x27b1\x27 name=\x27b1\x27>Click</button>\n</div>" := by
    simp [processElement, processChildren, strLower, localName, strStartsWith, cascadeAttrOf,
      XNode.hasCascade, XNode.getAttr, XNode.getAttrD, XNode.attrs, XNode.tag, XNode.children,
      XNode.text, XNode.textOr, XNode.cascadeVal, lookupAttr, truthy, pyJoin, c2Tree]
  refine ⟨by decide, hhtml, ?_⟩
  rw [hhtml]
  decide

/-- C2 (witness): a textEdit node with cascade value grpA sets the flag and
its emitted input carries the data-cascade marker with that value. -/
theorem c2_marker_witness :
    (processElement c2WitTree ⟨false, c2WitTree⟩).2.cascadeRequired = true ∧
    specContains (processElement c2WitTree ⟨false, c2WitTree⟩).1 " data-cascade=\x27grpA\x27" := by
  have h := c2_marker_amended c2WitTree ⟨false, c2WitTree⟩ "grpA" (by decide) (by decide)
  refine ⟨h.1, ?_⟩
  have h2 := h.2.1 (by decide)
  simpa using h2

/-- C10: no escaping is applied when rendering: a static-text node
interpolates its direct text verbatim into the emitted fragment, and a
non-button field interpolates its value and name attribute values verbatim,
character for character. -/
theorem c10_verbatim (el : XNode) (st : RState) :
    (strLower (localName el.tag) = "text" →
      specContains (processElement el st).1 (el.textOr "")) ∧
    (strLower (localName el.tag) = "field" → fieldIsButton el = false →
      specContains (processElement el st).1 (el.getAttrD "value" "") ∧
      specContains (processElement el st).1 (el.getAttrD "name" "UnnamedField")) := by
  constructor
  · intro h
    simp only [processElement, h, String.reduceEq, reduceIte, pyJoin]
    refine ⟨"<div class=\x27static-text\x27>", "</div>", ?_⟩
    simp [String.append_assoc]
  · intro h hb
    simp only [processElement, h, String.reduceEq, reduceIte, hb, Bool.false_eq_true]
    constructor
    · refine pyJoin_contains_of_mem "\n" _ _ _
        (List.mem_cons_of_mem _ (List.mem_cons_of_mem _ (List.mem_cons_self _ _))) ?_
      apply specContains_appL
      apply specContains_appL
      apply specContains_appL
      apply specContains_appR
      exact specContains_here _
    · refine pyJoin_contains_of_mem "\n" _ _ _
        (List.mem_cons_of_mem _ (List.mem_cons_of_mem _ (List.mem_cons_self _ _))) ?_
      apply specContains_appL
      apply specContains_appL
      apply specContains_appL
      apply specContains_appL
      apply specContains_appL
      apply specContains_appR
      exact specContains_here _

/-- C10 (witness): a field value holding a quote, an ampersand and an angle
bracket appears verbatim in the emitted fragment. -/
theorem c10_verbatim_witness :
    specContains (processElement c10WitTree ⟨false, c10WitTree⟩).1 "a\x27&<z" := by
  have h := ((c10_verbatim c10WitTree ⟨false, c10WitTree⟩).2 (by decide) (by decide)).1
  simpa [XNode.getAttrD, XNode.getAttr, XNode.attrs, lookupAttr, c10WitTree] using h
